import Mathlib

/-!
Shallow embedding of the "World RNG Mix" server (src/server.js): a
multi-source entropy mixer that derives one decimal digit per minute
boundary, broadcasts a preview before the boundary and a reveal at the
boundary, and keeps per-provider statistics.

Conventions of the embedding:
* JS machine integers are modelled as `Nat` with explicit `% 2^32`
  (`u32`) where JS performs 32-bit truncation; millisecond timestamps
  are `Int` (`Date.now()` values are exact integers below 2^53).
* Node `Buffer`s are `List Nat` of byte values (each `< 256`).
* Strings are Lean `String`s; all strings the program hashes are ASCII,
  so the UTF-8 bytes of a string are `s.data.map Char.toNat`.
* Fallible external calls (HTTP fetches, `crypto.randomBytes`) are
  passed in as explicit inputs (`Except`/`Option`); a thrown exception
  is an `Option.none` result that aborts the rest of the computation,
  exactly as exception propagation does in the source.
* Library primitives whose internals no claim depends on
  (`Date.prototype.toISOString`, the AES-256-CTR keystream) are
  function parameters; SHA-256, HMAC-SHA256 and the ChaCha20 block
  function are implemented in full below.
-/

/-- Truncation to an unsigned 32-bit value, the `>>> 0` / `Uint32Array`
semantics used throughout the JS source. -/
def u32 (n : Nat) : Nat := n % 4294967296

/-- `chStarts p l` decides whether the character list `p` is an initial
segment of `l`; backing for the model of JS `String.prototype.startsWith`. -/
def chStarts : List Char → List Char → Bool
  | [], _ => true
  | _ :: _, [] => false
  | a :: as, b :: bs => a == b && chStarts as bs

/-- Model of JS `s.startsWith(p)`. -/
def jsStartsWith (s p : String) : Bool := chStarts p.data s.data

/-- Model of JS `s.slice(0, n)` (take the first `n` UTF-16 units; all
strings involved are ASCII, where this is the first `n` characters). -/
def jsSlice (s : String) (n : Nat) : String := String.mk (s.data.take n)

/-- The byte values of an ASCII string, as hashed by `crypto` (UTF-8
encoding; these strings are ASCII so it is one byte per character). -/
def strBytes (s : String) : List Nat := s.data.map Char.toNat

/-- Hex digit character for a value `0..15`, lower case as produced by
`Buffer.prototype.toString("hex")` and `Hash.prototype.digest("hex")`. -/
def hexDigitChar (n : Nat) : Char :=
  if n < 10 then Char.ofNat (48 + n) else Char.ofNat (87 + n)

/-- Two hex characters of one byte. -/
def byteToHex (b : Nat) : List Char := [hexDigitChar (b / 16), hexDigitChar (b % 16)]

/-- Model of `buf.toString("hex")`: lower-case hex of a byte list. -/
def toHex (bs : List Nat) : String :=
  String.mk (bs.foldr (fun b acc => byteToHex b ++ acc) [])

/-- Numeric value of one hex character (0 for non-hex characters). -/
def hexVal (c : Char) : Nat :=
  let n := c.toNat
  if 48 ≤ n ∧ n ≤ 57 then n - 48
  else if 97 ≤ n ∧ n ≤ 102 then n - 87
  else if 65 ≤ n ∧ n ≤ 70 then n - 55
  else 0

/-- Model of JS `BigInt("0x" + s)` on a hex string: the string read as a
base-16 unsigned integer. -/
def hexToNat (s : String) : Nat := s.data.foldl (fun a c => a * 16 + hexVal c) 0

/-- Little-endian value of a byte list (`head` is the least significant
byte). -/
def leVal : List Nat → Nat
  | [] => 0
  | b :: rest => b + 256 * leVal rest

/-- Big-endian value of a byte list (`head` is the most significant
byte), the reading order of the 16-byte Fortuna counter. -/
def beVal (bs : List Nat) : Nat := leVal bs.reverse

/-- Little-endian byte-list increment with carry: each touched byte
becomes `(b + 1) & 0xff` and the carry proceeds while a byte wraps to 0
— the loop body of `incrementCounter` read from the low-order end. -/
def incLE : List Nat → List Nat
  | [] => []
  | b :: rest =>
    if (b + 1) % 256 = 0 then ((b + 1) % 256) :: incLE rest
    else ((b + 1) % 256) :: rest

/-- src/server.js `incrementCounter(buf)`: in-place big-endian increment
of the 16-byte Fortuna counter, starting at index 15 and carrying
toward index 0, each byte updated as `(buf[i] + 1) & 0xff`. The
functional rendering runs `incLE` on the reversed (little-endian-first)
list. -/
def incrementCounter (buf : List Nat) : List Nat := (incLE buf.reverse).reverse

-- ### SHA-256 (the `crypto.createHash("sha256")` primitive), big-endian.

/-- 32-bit right rotation. -/
def rotr32 (x n : Nat) : Nat := u32 ((x >>> n) ||| (x <<< (32 - n)))

/-- SHA-256 Σ₀. -/
def bigS0 (x : Nat) : Nat := (rotr32 x 2) ^^^ (rotr32 x 13) ^^^ (rotr32 x 22)

/-- SHA-256 Σ₁. -/
def bigS1 (x : Nat) : Nat := (rotr32 x 6) ^^^ (rotr32 x 11) ^^^ (rotr32 x 25)

/-- SHA-256 σ₀. -/
def smallS0 (x : Nat) : Nat := (rotr32 x 7) ^^^ (rotr32 x 18) ^^^ (x >>> 3)

/-- SHA-256 σ₁. -/
def smallS1 (x : Nat) : Nat := (rotr32 x 17) ^^^ (rotr32 x 19) ^^^ (x >>> 10)

/-- SHA-256 Ch. -/
def chFn (x y z : Nat) : Nat := (x &&& y) ^^^ ((4294967295 ^^^ x) &&& z)

/-- SHA-256 Maj. -/
def majFn (x y z : Nat) : Nat := (x &&& y) ^^^ (x &&& z) ^^^ (y &&& z)

/-- SHA-256 round constants (decimal renderings of the 64 standard
words `428a2f98`, `71374491`, ... from FIPS 180-4). -/
def K256 : List Nat :=
  [1116352408, 1899447441, 3049323471, 3921009573, 961987163,
   1508970993, 2453635748, 2870763221, 3624381080, 310598401,
   607225278, 1426881987, 1925078388, 2162078206, 2614888103,
   3248222580, 3835390401, 4022224774, 264347078, 604807628,
   770255983, 1249150122, 1555081692, 1996064986, 2554220882,
   2821834349, 2952996808, 3210313671, 3336571891, 3584528711,
   113926993, 338241895, 666307205, 773529912, 1294757372,
   1396182291, 1695183700, 1986661051, 2177026350, 2456956037,
   2730485921, 2820302411, 3259730800, 3345764771, 3516065817,
   3600352804, 4094571909, 275423344, 430227734, 506948616,
   659060556, 883997877, 958139571, 1322822218, 1537002063,
   1747873779, 1955562222, 2024104815, 2227730452, 2361852424,
   2428436474, 2756734187, 3204031479, 3329325298]

/-- SHA-256 initial hash state (decimal renderings of `6a09e667`,
`bb67ae85`, ... from FIPS 180-4). -/
def H256init : List Nat :=
  [1779033703, 3144134277, 1013904242, 2773480762,
   1359893119, 2600822924, 528734635, 1541459225]

/-- 8-byte big-endian encoding of a 64-bit value (the message bit length
in SHA-256 padding). -/
def be64bytes (n : Nat) : List Nat :=
  [(n >>> 56) &&& 255, (n >>> 48) &&& 255, (n >>> 40) &&& 255, (n >>> 32) &&& 255,
   (n >>> 24) &&& 255, (n >>> 16) &&& 255, (n >>> 8) &&& 255, n &&& 255]

/-- 4-byte big-endian encoding of a 32-bit word. -/
def be32bytes (w : Nat) : List Nat :=
  [(w >>> 24) &&& 255, (w >>> 16) &&& 255, (w >>> 8) &&& 255, w &&& 255]

/-- SHA-256 padding: append `0x80`, zero bytes to 56 mod 64, then the
bit length as 8 big-endian bytes. -/
def padMessage (msg : List Nat) : List Nat :=
  let r := msg.length % 64
  let k := (119 - r) % 64
  msg ++ [0x80] ++ List.replicate k 0 ++ be64bytes (8 * msg.length)

/-- Split a byte list into 64-byte blocks, structurally recursive on a
fuel bound (any fuel of at least the list length splits the whole
list). -/
def toBlocksN : Nat → List Nat → List (List Nat)
  | 0, _ => []
  | fuel + 1, l => if l = [] then [] else l.take 64 :: toBlocksN fuel (l.drop 64)

/-- Split a (padded) byte list into 64-byte blocks. -/
def toBlocks (l : List Nat) : List (List Nat) := toBlocksN l.length l

/-- Big-endian 32-bit words of a byte list. -/
def bytesToWordsBE : List Nat → List Nat
  | a :: b :: c :: d :: rest => (((a * 256 + b) * 256 + c) * 256 + d) :: bytesToWordsBE rest
  | _ => []

/-- SHA-256 message schedule: extend 16 words to 64. -/
def msgSchedule (w16 : List Nat) : List Nat :=
  (List.range 48).foldl (fun w _ =>
    let n := w.length
    w ++ [u32 (smallS1 (w.getD (n - 2) 0) + w.getD (n - 7) 0 +
               smallS0 (w.getD (n - 15) 0) + w.getD (n - 16) 0)]) w16

/-- One SHA-256 round on the 8-word working state, consuming one
`(round constant, schedule word)` pair. -/
def compressWord (st : List Nat) (kw : Nat × Nat) : List Nat :=
  match st with
  | [a, b, c, d, e, f, g, h] =>
    let t1 := u32 (h + bigS1 e + chFn e f g + kw.1 + kw.2)
    let t2 := u32 (bigS0 a + majFn a b c)
    [u32 (t1 + t2), a, b, c, u32 (d + t1), e, f, g]
  | _ => st

/-- SHA-256 compression of one 64-byte block into the hash state. -/
def compressBlock (H : List Nat) (block : List Nat) : List Nat :=
  let w := msgSchedule (bytesToWordsBE block)
  let st := (K256.zip w).foldl compressWord H
  List.zipWith (fun x y => u32 (x + y)) H st

/-- Full SHA-256: 32 digest bytes of a byte-list message. -/
def sha256Bytes (msg : List Nat) : List Nat :=
  let Hf := (toBlocks (padMessage msg)).foldl compressBlock H256init
  Hf.foldr (fun wd acc => be32bytes wd ++ acc) []

/-- `crypto.createHash("sha256").update(s).digest("hex")` on an ASCII
string: the lower-case hex digest. -/
def sha256hexStr (s : String) : String := toHex (sha256Bytes (strBytes s))

/-- `crypto.createHmac("sha256", key).update(msg).digest()`:
HMAC-SHA256 over byte lists (block size 64). -/
def hmacSha256 (key msg : List Nat) : List Nat :=
  let k0 := if 64 < key.length then sha256Bytes key else key
  let k := k0 ++ List.replicate (64 - k0.length) 0
  let ipad := k.map (fun b => b ^^^ 0x36)
  let opad := k.map (fun b => b ^^^ 0x5c)
  sha256Bytes (opad ++ sha256Bytes (ipad ++ msg))

-- ### ChaCha20 block (src/server.js `rotl`, `quarterRound`, `chacha20Block`).

/-- 4-byte little-endian encoding of a 32-bit word
(`Buffer.prototype.writeUInt32LE`). -/
def le32bytes (w : Nat) : List Nat :=
  [w &&& 255, (w >>> 8) &&& 255, (w >>> 16) &&& 255, (w >>> 24) &&& 255]

/-- `buf.readUInt32LE(i)`: little-endian 32-bit word at byte offset `i`. -/
def readUInt32LE (bs : List Nat) (i : Nat) : Nat :=
  bs.getD i 0 + 256 * (bs.getD (i + 1) 0 + 256 * (bs.getD (i + 2) 0 + 256 * bs.getD (i + 3) 0))

/-- src/server.js `rotl(v, c)`: `((v << c) | (v >>> (32 - c))) >>> 0`,
a 32-bit left rotation for `v < 2^32`. -/
def rotl (v c : Nat) : Nat := u32 ((v <<< c) ||| (v >>> (32 - c)))

/-- src/server.js `quarterRound(state, a, b, c, d)` as a pure update of
the 16-word state list. -/
def quarterRound (st : List Nat) (a b c d : Nat) : List Nat :=
  let st := st.set a (u32 (st.getD a 0 + st.getD b 0))
  let st := st.set d (rotl (st.getD d 0 ^^^ st.getD a 0) 16)
  let st := st.set c (u32 (st.getD c 0 + st.getD d 0))
  let st := st.set b (rotl (st.getD b 0 ^^^ st.getD c 0) 12)
  let st := st.set a (u32 (st.getD a 0 + st.getD b 0))
  let st := st.set d (rotl (st.getD d 0 ^^^ st.getD a 0) 8)
  let st := st.set c (u32 (st.getD c 0 + st.getD d 0))
  let st := st.set b (rotl (st.getD b 0 ^^^ st.getD c 0) 7)
  st

/-- src/server.js `chacha20Block(key32, counter, nonce12)`: the 20-round
(10 double-round) ChaCha20 block: constants, 8 LE key words, the 32-bit
counter, 3 LE nonce words; permute a working copy, add it back onto the
initial state word-wise mod 2^32, serialize 16 words little-endian. -/
def chacha20Block (key32 : List Nat) (counter : Nat) (nonce12 : List Nat) : List Nat :=
  let constants := [0x61707865, 0x3320646e, 0x79622d32, 0x6b206574]
  let k := (List.range 8).map (fun i => readUInt32LE key32 (i * 4))
  let state := constants ++ k ++
    [u32 counter, readUInt32LE nonce12 0, readUInt32LE nonce12 4, readUInt32LE nonce12 8]
  let working := (List.range 10).foldl (fun w _ =>
    let w := quarterRound w 0 4 8 12
    let w := quarterRound w 1 5 9 13
    let w := quarterRound w 2 6 10 14
    let w := quarterRound w 3 7 11 15
    let w := quarterRound w 0 5 10 15
    let w := quarterRound w 1 6 11 12
    let w := quarterRound w 2 7 8 13
    let w := quarterRound w 3 4 9 14
    w) state
  (List.range 16).foldr (fun i acc => le32bytes (u32 (working.getD i 0 + state.getD i 0)) ++ acc) []

def testKey : List Nat := (List.range 32)
def testNonce : List Nat := [0,0,0,9,0,0,0,0x4a,0,0,0,0]

-- ### Provider state (src/server.js module-level objects).

/-- The `fortuna` object: 256-bit key, 16-byte big-endian counter,
request count. -/
structure FortunaState where
  key : List Nat
  counter : List Nat
  requests : Nat
deriving Repr, DecidableEq

/-- The `chacha` object: 256-bit key, 12-byte nonce, block counter
(a plain JS number: it grows without 32-bit wrap; `chacha20Block`
truncates it with `>>> 0` when building the state). -/
structure ChaChaState where
  key : List Nat
  nonce : List Nat
  counter : Nat
deriving Repr, DecidableEq

/-- src/server.js `maybeReseedFortuna()`: increment the request count;
on every 100th request replace the key by
`HMAC-SHA256(key, 32 fresh OS-random bytes)`. The fresh bytes
(`crypto.randomBytes(32)`) are the explicit input `extra`. -/
def maybeReseedFortuna (extra : List Nat) (f : FortunaState) : FortunaState :=
  let requests := f.requests + 1
  if requests % 100 = 0 then
    { f with requests := requests, key := hmacSha256 f.key extra }
  else
    { f with requests := requests }

/-- src/server.js `aesCtrNext(key, counter)`: emit one keystream output
and increment the counter. The AES-256-CTR keystream itself
(`crypto.createCipheriv("aes-256-ctr", ...)`) is a library primitive no
claim depends on, so it is the function parameter `aesCtrEnc`. Returns
`(output bytes, updated counter)`. -/
def aesCtrNext (aesCtrEnc : List Nat → List Nat → List Nat)
    (key counter : List Nat) : List Nat × List Nat :=
  (aesCtrEnc key counter, incrementCounter counter)

-- ### Remote beacon fetches (src/server.js `fetchWithTimeout`,
-- `fetchNIST`, `fetchDrand`).

/-- The ways an HTTP fetch can fail: all are caught by the
`try { ... } catch (e) { return null }` in `fetchWithTimeout`. -/
inductive FetchFailure where
  | timeout
  | badStatus
  | malformedBody
  | networkError
deriving Repr, DecidableEq

/-- src/server.js `fetchWithTimeout(url, ms)`: the outcome of the HTTP
round trip is the input; a successful 2xx response with a parseable
JSON body is `Except.ok body`, every failure mode is `Except.error`.
The function returns the parsed body or `null` (`none`) — by
construction it is total: no exception ever escapes to the caller. -/
def fetchWithTimeout {α : Type} (outcome : Except FetchFailure α) : Option α :=
  match outcome with
  | .ok body => some body
  | .error _ => none

/-- JS truthiness of an optional string (`undefined`/`null` and `""`
are falsy). -/
def jsTruthyS (s : Option String) : Bool :=
  match s with
  | some t => t ≠ ""
  | none => false

/-- JS truthiness of an optional number (`undefined` and `0` are
falsy). -/
def jsTruthyN (n : Option Nat) : Bool :=
  match n with
  | some v => v ≠ 0
  | none => false

/-- JS `a || b` on optional strings, by string truthiness. -/
def jsOr (a b : Option String) : Option String := if jsTruthyS a then a else b

/-- Shape of the NIST beacon JSON used by the source:
`j?.pulse?.outputValue`. -/
structure NistBody where
  pulse : Option (Option String)
deriving Repr, DecidableEq

/-- src/server.js `fetchNIST()`: fetch the latest pulse and return
`j?.pulse?.outputValue || null` (missing fields and the empty string
collapse to `null`). -/
def fetchNIST (resp : Except FetchFailure NistBody) : Option String :=
  match fetchWithTimeout resp with
  | none => none
  | some j =>
    match j.pulse with
    | none => none
    | some outputValue =>
      match outputValue with
      | none => none
      | some s => if s = "" then none else some s

/-- Shape of a drand JSON response as read by the source: fields
`round`, `signature`, `crypto_hash`, `random`. -/
structure DrandBody where
  round : Option Nat
  signature : Option String
  crypto_hash : Option String
  random : Option String
deriving Repr, DecidableEq

/-- src/server.js `fetchDrand()`: try the mirror URLs in order; on the
first response `j` with `j && (j.round || j.signature || j.crypto_hash)`
return `j?.random || j?.round?.toString() || (j?.signature || null)`;
if no mirror qualifies return `null`. -/
def fetchDrand (resps : List (Except FetchFailure DrandBody)) : Option String :=
  match resps with
  | [] => none
  | r :: rest =>
    match fetchWithTimeout r with
    | some j =>
      if jsTruthyN j.round || jsTruthyS j.signature || jsTruthyS j.crypto_hash then
        jsOr j.random (jsOr (j.round.map Nat.repr) (jsOr j.signature none))
      else fetchDrand rest
    | none => fetchDrand rest

-- ### The mixer (src/server.js `computeMixedDigit`).

/-- The value of `computeMixedDigit`: `{ digit, hash, parts }`. -/
structure MixResult where
  digit : Nat
  hash : String
  parts : List String
deriving Repr, DecidableEq

/-- The body of `computeMixedDigit(minuteBoundaryMs)` after the
`crypto.randomBytes(32)` call has succeeded with `opensslBuf`:
collect the tagged contributions (NIST and drand only when their
fetched value is truthy, then OpenSSL, Fortuna, ChaCha20, and the
`ts:` boundary tag), join them with `"|"`, hash with SHA-256, and take
the first 16 hex characters of the digest modulo 10 as the digit.
`nistRes`/`drandRes` are the awaited results of `fetchNIST()` /
`fetchDrand()`; `reseedRnd` is the `crypto.randomBytes(32)` input of a
potential Fortuna reseed; `toISO` models `Date.prototype.toISOString`.
Returns the result together with the updated `fortuna` and `chacha`
states. -/
def mixOut (toISO : Int → String) (aesCtrEnc : List Nat → List Nat → List Nat)
    (nistRes drandRes : Option String) (opensslBuf reseedRnd : List Nat)
    (fort : FortunaState) (cha : ChaChaState) (minuteBoundaryMs : Int) :
    MixResult × FortunaState × ChaChaState :=
  let parts : List String := []
  let parts := match nistRes with
    | some n => if n = "" then parts else parts ++ ["nist:" ++ jsSlice n 64]
    | none => parts
  let parts := match drandRes with
    | some dr => if dr = "" then parts else parts ++ ["drand:" ++ jsSlice dr 64]
    | none => parts
  let parts := parts ++ ["openssl:" ++ toHex opensslBuf]
  let fort1 := maybeReseedFortuna reseedRnd fort
  let fortunaPair := aesCtrNext aesCtrEnc fort1.key fort1.counter
  let fort2 := { fort1 with counter := fortunaPair.2 }
  let parts := parts ++ ["fortuna:" ++ toHex fortunaPair.1]
  let chachaBlock := chacha20Block cha.key cha.counter cha.nonce
  let cha2 := { cha with counter := cha.counter + 1 }
  let parts := parts ++ ["chacha20:" ++ toHex chachaBlock]
  let parts := parts ++ ["ts:" ++ toISO minuteBoundaryMs]
  let combined := String.intercalate "|" parts
  let hash := sha256hexStr combined
  let first16 := jsSlice hash 16
  let digit := hexToNat first16 % 10
  ({ digit := digit, hash := hash, parts := parts }, fort2, cha2)

/-- src/server.js `computeMixedDigit(minuteBoundaryMs)`. The local
CSPRNG call `crypto.randomBytes(32)` is the input `opensslRnd`:
`some buf` is a successful draw, `none` is the (presumed impossible)
OS entropy failure, whose thrown exception aborts the function before
any provider state is touched — modelled by the `none` result, which
propagates to the caller. -/
def computeMixedDigit (toISO : Int → String) (aesCtrEnc : List Nat → List Nat → List Nat)
    (nistRes drandRes : Option String) (opensslRnd : Option (List Nat)) (reseedRnd : List Nat)
    (fort : FortunaState) (cha : ChaChaState) (minuteBoundaryMs : Int) :
    Option (MixResult × FortunaState × ChaChaState) :=
  match opensslRnd with
  | none => none
  | some opensslBuf =>
    some (mixOut toISO aesCtrEnc nistRes drandRes opensslBuf reseedRnd fort cha minuteBoundaryMs)

-- ### Stats and primary-provider selection (src/server.js lines 175-183).

/-- src/server.js `scheduleLoop` primary-provider selection: scan
`mixed.parts` for tag prefixes in the fixed order nist, drand, openssl,
fortuna, chacha20; default `"openssl"`. -/
def primaryOf (parts : List String) : String :=
  if parts.any (fun p => jsStartsWith p "nist:") then "nist"
  else if parts.any (fun p => jsStartsWith p "drand:") then "drand"
  else if parts.any (fun p => jsStartsWith p "openssl:") then "openssl"
  else if parts.any (fun p => jsStartsWith p "fortuna:") then "fortuna"
  else if parts.any (fun p => jsStartsWith p "chacha20:") then "chacha20"
  else "openssl"

/-- The `stats` object as a map from provider name to count;
`stats[primary] = (stats[primary] || 0) + 1`. -/
def bumpStats (st : String → Nat) (p : String) : String → Nat :=
  fun k => if k = p then st k + 1 else st k

/-- Sum of the five per-provider counters, the keys of the initial
`stats` object. -/
def sumStats (st : String → Nat) : Nat :=
  st "openssl" + st "fortuna" + st "chacha20" + st "nist" + st "drand"

/-- The initial `stats` object: all five counters zero. -/
def statsInit : String → Nat := fun _ => 0

/-- Modelled from the spec (§4.2 / claim C6 wording, for comparison
with the code's `primaryOf`): the first provider in the fixed priority
order remote-beacon nist, remote-beacon drand, local CSPRNG openssl,
stream-counter fortuna, stream-cipher-block chacha20 whose contribution
flag is set. (When no flag is set the code's variable keeps its initial
value `"openssl"`; the spec leaves this unreachable case open.) -/
def specPrimary (nistC drandC osC fortC chaC : Bool) : String :=
  if nistC then "nist"
  else if drandC then "drand"
  else if osC then "openssl"
  else if fortC then "fortuna"
  else if chaC then "chacha20"
  else "openssl"

-- ### The scheduler (src/server.js `msUntilNextPreview`, `scheduleLoop`).

/-- `Math.ceil(t / 60000) * 60000`: the minute boundary at or after
`t`. `Date.now()` values are small enough that the float division's
ceiling equals the integer ceiling, and for every integer `t`,
`⌈t / 60000⌉ = ⌊(t + 59999) / 60000⌋`; with the positive divisor 60000
the `Int` division `/` is exactly that floor division. -/
def ceilMinute (t : Int) : Int := ((t + 59999) / 60000) * 60000

/-- src/server.js `msUntilNextPreview()`: `previewTime - now`, where
`previewTime` is 40000 ms before the next minute boundary. -/
def msUntilNextPreview (now : Int) : Int := (ceilMinute now - 40000) - now

/-- One `preview`/`reveal` Socket.IO payload:
`{ minuteBoundary, previewAt|revealAt, digit, hash }`. -/
structure EventPayload where
  minuteBoundary : String
  atISO : String
  digit : Nat
  hash : String
deriving Repr, DecidableEq

/-- Everything one successful iteration of the `scheduleLoop` callback
produces: the `preview` payload emitted at mix completion, the `reveal`
payload emitted at the boundary (the closure captures the same `mixed`
object), the updated stats and provider states, and `rearmed = true`
recording that the tail call `scheduleLoop()` was reached. -/
structure IterResult where
  preview : EventPayload
  reveal : EventPayload
  stats : String → Nat
  fort : FortunaState
  cha : ChaChaState
  rearmed : Bool

/-- The body of the `scheduleLoop` `setTimeout` callback after
`computeMixedDigit` returned `(mixed, fort', cha')`: pick the primary
provider from `mixed.parts`, bump its stats counter, build the
`preview` payload (with `previewAt = boundary - 40000`) and the
`reveal` payload (same `minuteBoundary`, `digit`, `hash`). `now` is
`Date.now()` at callback entry, from which the callback recomputes
`nextMinuteBoundary`. -/
def iterOut (toISO : Int → String) (now : Int)
    (mixed : MixResult) (fort' : FortunaState) (cha' : ChaChaState)
    (st : String → Nat) : IterResult :=
  let nextMinuteBoundary := ceilMinute now
  let minuteBoundaryISO := toISO nextMinuteBoundary
  let primary := primaryOf mixed.parts
  let st' := bumpStats st primary
  { preview := { minuteBoundary := minuteBoundaryISO,
                 atISO := toISO (nextMinuteBoundary - 40000),
                 digit := mixed.digit, hash := mixed.hash }
    reveal := { minuteBoundary := minuteBoundaryISO,
                atISO := toISO nextMinuteBoundary,
                digit := mixed.digit, hash := mixed.hash }
    stats := st'
    fort := fort'
    cha := cha'
    rearmed := true }

/-- One iteration of the `scheduleLoop` `setTimeout` callback: compute
`nextMinuteBoundary = Math.ceil(Date.now()/60000)*60000`, await
`computeMixedDigit`, then emit and re-arm. If `computeMixedDigit`
throws (local entropy failure, `opensslRnd = none`) the `await`
rethrows and the callback aborts: no stats update, no `preview`, no
`reveal`, and — because the tail call `scheduleLoop()` is never reached
— no re-arming; that aborted outcome is the `none` result. -/
def schedIteration (toISO : Int → String) (aesCtrEnc : List Nat → List Nat → List Nat)
    (now : Int) (nistRes drandRes : Option String) (opensslRnd : Option (List Nat))
    (reseedRnd : List Nat) (fort : FortunaState) (cha : ChaChaState)
    (st : String → Nat) : Option IterResult :=
  match computeMixedDigit toISO aesCtrEnc nistRes drandRes opensslRnd reseedRnd fort cha
      (ceilMinute now) with
  | none => none
  | some (mixed, fort', cha') => some (iterOut toISO now mixed fort' cha' st)

-- ### Wall-clock timeline of the scheduling loop (src/server.js lines 164-202).

/-- The timing data of one `scheduleLoop` round. All times are
`Date.now()` milliseconds; timers are idealized as firing exactly at
their target instant. -/
structure TraceRound where
  callTime : Int
  fireTime : Int
  boundary : Int
  previewEmit : Int
  revealTime : Int
deriving Repr, DecidableEq

/-- One round of the loop, started by a call to `scheduleLoop()` at
`callTime` with mixing duration `d`:
`setTimeout(cb, max(0, msUntilNextPreview()) + 10)` fires the callback
at `fireTime`; the callback recomputes the boundary from `Date.now()`,
mixes for `d` ms, emits `preview` at `previewEmit = fireTime + d`, arms
the reveal timer for `max(0, boundary - Date.now())` ms, and
immediately calls `scheduleLoop()` again (at `previewEmit`, before the
reveal timer fires). -/
def traceStep (d : Int) (callTime : Int) : TraceRound :=
  let wait := max 0 (msUntilNextPreview callTime)
  let fire := callTime + wait + 10
  let boundary := ceilMinute fire
  let emitP := fire + d
  { callTime := callTime
    fireTime := fire
    boundary := boundary
    previewEmit := emitP
    revealTime := emitP + max 0 (boundary - emitP) }

/-- The rounds produced by the self-rescheduling loop: round 0 starts
at process start `t0`; round `n+1` starts when round `n`'s callback
calls `scheduleLoop()` again, i.e. at round `n`'s `previewEmit`.
`d n` is round `n`'s mixing duration. -/
def trace (d : Nat → Int) (t0 : Int) : Nat → TraceRound
  | 0 => traceStep (d 0) t0
  | n + 1 => traceStep (d (n + 1)) (trace d t0 n).previewEmit

-- ### Multi-round stats accumulation (for claim C6).

/-- The per-round external inputs of one mixing call. -/
structure RoundInput where
  nistRes : Option String
  drandRes : Option String
  opensslBuf : List Nat
  reseedRnd : List Nat
  boundaryMs : Int

/-- The process state the loop threads from round to round. -/
structure SysState where
  fort : FortunaState
  cha : ChaChaState
  stats : String → Nat

/-- One completed round's effect on the process state: mix, then bump
the stats counter of the primary provider (src/server.js lines
173-183). -/
def roundStep (toISO : Int → String) (aesCtrEnc : List Nat → List Nat → List Nat)
    (s : SysState) (ri : RoundInput) : SysState :=
  match computeMixedDigit toISO aesCtrEnc ri.nistRes ri.drandRes (some ri.opensslBuf)
      ri.reseedRnd s.fort s.cha ri.boundaryMs with
  | none => s
  | some (mixed, fort', cha') =>
    { fort := fort', cha := cha', stats := bumpStats s.stats (primaryOf mixed.parts) }

/-- The process state after a sequence of completed rounds. -/
def runRounds (toISO : Int → String) (aesCtrEnc : List Nat → List Nat → List Nat)
    (s0 : SysState) (rounds : List RoundInput) : SysState :=
  rounds.foldl (roundStep toISO aesCtrEnc) s0

-- ### Concrete sample values used by witnesses and counterexamples.

/-- A trivial stand-in for `Date.prototype.toISOString` (no claim
depends on the text of the ISO string). -/
def toISO0 : Int → String := fun t => toString t

/-- A trivial stand-in for the AES-256-CTR keystream. -/
def aes0 : List Nat → List Nat → List Nat := fun _ _ => List.replicate 32 0

/-- A concrete Fortuna state: the process-start counter
`Buffer.alloc(16, 0)` and some 32-byte key. -/
def fort0 : FortunaState :=
  { key := List.replicate 32 7, counter := List.replicate 16 0, requests := 0 }

/-- A concrete ChaCha state with the process-start counter 1. -/
def cha0 : ChaChaState :=
  { key := List.range 32, nonce := List.replicate 12 0, counter := 1 }

-- ## Helper lemmas

theorem chStarts_append_self (p s : List Char) : chStarts p (p ++ s) = true := by
  induction p with
  | nil => rfl
  | cons a as ih => simp [chStarts, ih]

theorem chStarts_head_ne (a b : Char) (as bs : List Char) (h : (a == b) = false) :
    chStarts (a :: as) (b :: bs) = false := by
  simp [chStarts, h]

theorem jsStartsWith_tag_self (t s : String) : jsStartsWith (t ++ s) t = true := by
  show chStarts t.data (t ++ s).data = true
  rw [String.data_append]
  exact chStarts_append_self _ _

theorem notNist_drand (s : String) : jsStartsWith ("drand:" ++ s) "nist:" = false := by
  show chStarts "nist:".data ("drand:" ++ s).data = false
  rw [String.data_append]
  exact chStarts_head_ne _ _ _ _ (by decide)

theorem notNist_openssl (s : String) : jsStartsWith ("openssl:" ++ s) "nist:" = false := by
  show chStarts "nist:".data ("openssl:" ++ s).data = false
  rw [String.data_append]
  exact chStarts_head_ne _ _ _ _ (by decide)

theorem notNist_fortuna (s : String) : jsStartsWith ("fortuna:" ++ s) "nist:" = false := by
  show chStarts "nist:".data ("fortuna:" ++ s).data = false
  rw [String.data_append]
  exact chStarts_head_ne _ _ _ _ (by decide)

theorem notNist_chacha (s : String) : jsStartsWith ("chacha20:" ++ s) "nist:" = false := by
  show chStarts "nist:".data ("chacha20:" ++ s).data = false
  rw [String.data_append]
  exact chStarts_head_ne _ _ _ _ (by decide)

theorem notNist_ts (s : String) : jsStartsWith ("ts:" ++ s) "nist:" = false := by
  show chStarts "nist:".data ("ts:" ++ s).data = false
  rw [String.data_append]
  exact chStarts_head_ne _ _ _ _ (by decide)

theorem notDrand_nist (s : String) : jsStartsWith ("nist:" ++ s) "drand:" = false := by
  show chStarts "drand:".data ("nist:" ++ s).data = false
  rw [String.data_append]
  exact chStarts_head_ne _ _ _ _ (by decide)

theorem notDrand_openssl (s : String) : jsStartsWith ("openssl:" ++ s) "drand:" = false := by
  show chStarts "drand:".data ("openssl:" ++ s).data = false
  rw [String.data_append]
  exact chStarts_head_ne _ _ _ _ (by decide)

theorem notDrand_fortuna (s : String) : jsStartsWith ("fortuna:" ++ s) "drand:" = false := by
  show chStarts "drand:".data ("fortuna:" ++ s).data = false
  rw [String.data_append]
  exact chStarts_head_ne _ _ _ _ (by decide)

theorem notDrand_chacha (s : String) : jsStartsWith ("chacha20:" ++ s) "drand:" = false := by
  show chStarts "drand:".data ("chacha20:" ++ s).data = false
  rw [String.data_append]
  exact chStarts_head_ne _ _ _ _ (by decide)

theorem notDrand_ts (s : String) : jsStartsWith ("ts:" ++ s) "drand:" = false := by
  show chStarts "drand:".data ("ts:" ++ s).data = false
  rw [String.data_append]
  exact chStarts_head_ne _ _ _ _ (by decide)

theorem leVal_lt (l : List Nat) (h : ∀ b ∈ l, b < 256) : leVal l < 256 ^ l.length := by
  induction l with
  | nil => simp [leVal]
  | cons b rest ih =>
    have hb : b < 256 := h b (List.mem_cons_self b rest)
    have hr : leVal rest < 256 ^ rest.length :=
      ih (fun x hx => h x (List.mem_cons_of_mem _ hx))
    simp only [leVal, List.length_cons, pow_succ]
    omega

theorem leVal_incLE (l : List Nat) (h : ∀ b ∈ l, b < 256) :
    leVal (incLE l) = (leVal l + 1) % 256 ^ l.length := by
  induction l with
  | nil => simp [incLE, leVal]
  | cons b rest ih =>
    have hb : b < 256 := h b (List.mem_cons_self b rest)
    have hr : ∀ x ∈ rest, x < 256 := fun x hx => h x (List.mem_cons_of_mem _ hx)
    by_cases hc : (b + 1) % 256 = 0
    · have hb255 : b = 255 := by omega
      subst hb255
      simp only [incLE, if_pos hc, leVal, hc, ih hr, List.length_cons, pow_succ]
      have he : 255 + 256 * leVal rest + 1 = 256 * (leVal rest + 1) := by ring
      rw [he, mul_comm (256 ^ rest.length) 256, Nat.mul_mod_mul_left]
      omega
    · have hlt : b + 1 < 256 := by omega
      have h1 : (b + 1) % 256 = b + 1 := Nat.mod_eq_of_lt hlt
      have hrlt : leVal rest < 256 ^ rest.length := leVal_lt rest hr
      simp only [incLE, if_neg hc, leVal, h1, List.length_cons, pow_succ]
      rw [Nat.mod_eq_of_lt (by omega : b + 256 * leVal rest + 1 < 256 ^ rest.length * 256)]
      omega

/-- `incrementCounter` adds one to the big-endian value of the byte
buffer, wrapping modulo `256 ^ length`. -/
theorem beVal_incrementCounter (buf : List Nat) (h : ∀ b ∈ buf, b < 256) :
    beVal (incrementCounter buf) = (beVal buf + 1) % 256 ^ buf.length := by
  unfold beVal incrementCounter
  rw [List.reverse_reverse]
  have h' : ∀ b ∈ buf.reverse, b < 256 := fun b hb => h b (List.mem_reverse.mp hb)
  rw [leVal_incLE _ h', List.length_reverse]

theorem incLE_length (l : List Nat) : (incLE l).length = l.length := by
  induction l with
  | nil => rfl
  | cons b rest ih =>
    by_cases hc : (b + 1) % 256 = 0
    · simp [incLE, if_pos hc, ih]
    · simp [incLE, if_neg hc]

theorem incrementCounter_length (buf : List Nat) :
    (incrementCounter buf).length = buf.length := by
  simp [incrementCounter, incLE_length]

theorem compressWord_length (st : List Nat) (kw : Nat × Nat) :
    (compressWord st kw).length = st.length := by
  unfold compressWord
  split
  · simp
  · rfl

theorem foldl_compressWord_length (pairs : List (Nat × Nat)) (H : List Nat) :
    (pairs.foldl compressWord H).length = H.length := by
  induction pairs generalizing H with
  | nil => rfl
  | cons p ps ih => rw [List.foldl_cons, ih, compressWord_length]

theorem compressBlock_length (H block : List Nat) :
    (compressBlock H block).length = H.length := by
  unfold compressBlock
  simp [List.length_zipWith, foldl_compressWord_length]

theorem foldl_compressBlock_length (bs : List (List Nat)) (H : List Nat) :
    (bs.foldl compressBlock H).length = H.length := by
  induction bs generalizing H with
  | nil => rfl
  | cons b rest ih => rw [List.foldl_cons, ih, compressBlock_length]

theorem foldr_be32_length (l : List Nat) :
    (l.foldr (fun wd acc => be32bytes wd ++ acc) []).length = 4 * l.length := by
  induction l with
  | nil => rfl
  | cons w ws ih =>
    rw [List.foldr_cons, List.length_append, ih]
    simp [be32bytes]
    omega

/-- SHA-256 always produces a 32-byte digest. -/
theorem sha256Bytes_length (msg : List Nat) : (sha256Bytes msg).length = 32 := by
  unfold sha256Bytes
  rw [foldr_be32_length, foldl_compressBlock_length]
  rfl

theorem toHex_data_length (bs : List Nat) : (toHex bs).data.length = 2 * bs.length := by
  unfold toHex
  show (bs.foldr (fun b acc => byteToHex b ++ acc) []).length = 2 * bs.length
  induction bs with
  | nil => rfl
  | cons b rest ih =>
    rw [List.foldr_cons, List.length_append, ih]
    simp [byteToHex]
    omega

/-- The hex digest string is always 64 characters long. -/
theorem sha256hexStr_length (s : String) : (sha256hexStr s).data.length = 64 := by
  unfold sha256hexStr
  rw [toHex_data_length, sha256Bytes_length]

-- ## Claim theorems

/-- C2 (code bug evidence): the scheduler does NOT wait for a round's
reveal before starting the next round. In the concrete timeline of a
process started at `t0 = 0` with instantaneous mixing, round 1's
callback fires — and its mixing begins — at t = 20010 ms, while round
0's reveal only fires at t = 60000 ms: two rounds are simultaneously
"active", contradicting the claimed invariant (and the source's own
header comment "Produces a final 0-9 digit per minute"). The cause:
`scheduleLoop()` is re-invoked directly after the preview emission,
inside the preview callback, instead of inside the reveal callback. -/
theorem c2_mixing_starts_before_previous_reveal :
    (trace (fun _ => 0) 0 1).fireTime = 20010 ∧
    (trace (fun _ => 0) 0 0).revealTime = 60000 ∧
    (trace (fun _ => 0) 0 1).fireTime < (trace (fun _ => 0) 0 0).revealTime := by
  refine ⟨by decide, by decide, by decide⟩

/-- C3 (code bug evidence): consecutive rounds are armed for the SAME
minute boundary. In the timeline of a process started at `t0 = 0` with
instantaneous mixing, rounds 0, 1 and 2 all compute
`nextMinuteBoundary = 60000`: the boundary of the later round is not
strictly greater than that of the earlier one, and the round that
follows the reveal for boundary 60000 was not armed for the minute
strictly after it. -/
theorem c3_same_boundary_armed_repeatedly :
    (trace (fun _ => 0) 0 0).boundary = 60000 ∧
    (trace (fun _ => 0) 0 1).boundary = 60000 ∧
    (trace (fun _ => 0) 0 2).boundary = 60000 := by
  refine ⟨by decide, by decide, by decide⟩

/-- C7 counterexample: at the concrete instant `now = 60000` — a whole
minute boundary, reachable e.g. when `scheduleLoop()` runs at process
start exactly on a boundary, or as the fire time of a round started at
`callTime = 59990` — the computed boundary equals `now` itself: it is
NOT strictly greater than `now`, and no forward epsilon is applied
(`msUntilNextPreview` is `-40000`, re-selecting the boundary that is
just passing). -/
theorem c7_counterexample :
    ceilMinute 60000 = 60000 ∧ ¬ (60000 < ceilMinute 60000) ∧
    msUntilNextPreview 60000 = -40000 ∧
    (traceStep 0 59990).fireTime = 60000 ∧ (traceStep 0 59990).boundary = 60000 := by
  refine ⟨by decide, by decide, by decide, by decide, by decide⟩

/-- C7 amended: `Math.ceil(now/60000)*60000` computes the smallest
whole-minute instant greater than OR EQUAL to `now` — the code applies
no forward epsilon, so an instant lying exactly on a minute boundary is
mapped to itself rather than to the next minute. -/
theorem c7_boundary_is_least_minute_ge (now : Int) :
    ceilMinute now % 60000 = 0 ∧ now ≤ ceilMinute now ∧
    (∀ m : Int, m % 60000 = 0 → now ≤ m → ceilMinute now ≤ m) := by
  unfold ceilMinute
  refine ⟨by omega, by omega, ?_⟩
  intro m hm hnm
  omega

/-- Witness for `c7_boundary_is_least_minute_ge` at `now = 90123`,
`m = 120000`. -/
theorem c7_boundary_is_least_minute_ge_witness :
    (120000 : Int) % 60000 = 0 ∧ (90123 : Int) ≤ 120000 ∧ ceilMinute 90123 ≤ 120000 :=
  ⟨by decide, by decide, (c7_boundary_is_least_minute_ge 90123).2.2 120000 (by decide) (by decide)⟩

/-- C8 counterexample: on a fatal local-entropy failure
(`crypto.randomBytes` throws, `opensslRnd = none`) at the concrete fire
instant `now = 20` the scheduler iteration produces NOTHING — the
`none` outcome: no `preview`, no `reveal` (as the claim states), but
also no re-arming, because the thrown exception aborts the callback
before the tail call `scheduleLoop()`; the claim's "re-arms itself for
the next boundary rather than stopping" is false for this input. -/
theorem c8_counterexample :
    schedIteration toISO0 aes0 20 none none none [] fort0 cha0 statsInit = none := rfl

/-- C8 amended: on a fatal local-entropy failure the scheduler emits no
preview and no reveal for the boundary, but it does not re-arm either:
the callback aborts (result `none`) and the loop stops, whereas a
successful `crypto.randomBytes` draw always yields an iteration result
that both emits and re-arms (`rearmed = true`). -/
theorem c8_entropy_failure_aborts_without_rearm
    (toISO : Int → String) (aesCtrEnc : List Nat → List Nat → List Nat)
    (now : Int) (nistRes drandRes : Option String) (reseedRnd : List Nat)
    (fort : FortunaState) (cha : ChaChaState) (st : String → Nat) :
    schedIteration toISO aesCtrEnc now nistRes drandRes none reseedRnd fort cha st = none ∧
    (∀ buf : List Nat,
      ∃ r : IterResult,
        schedIteration toISO aesCtrEnc now nistRes drandRes (some buf) reseedRnd fort cha st =
          some r ∧ r.rearmed = true) :=
  ⟨rfl, fun buf =>
    ⟨iterOut toISO now
        (mixOut toISO aesCtrEnc nistRes drandRes buf reseedRnd fort cha (ceilMinute now)).1
        (mixOut toISO aesCtrEnc nistRes drandRes buf reseedRnd fort cha (ceilMinute now)).2.1
        (mixOut toISO aesCtrEnc nistRes drandRes buf reseedRnd fort cha (ceilMinute now)).2.2 st,
      rfl, rfl⟩⟩

theorem maybeReseedFortuna_counter (extra : List Nat) (f : FortunaState) :
    (maybeReseedFortuna extra f).counter = f.counter := by
  by_cases h : (f.requests + 1) % 100 = 0 <;> simp [maybeReseedFortuna, h]

theorem maybeReseedFortuna_requests (extra : List Nat) (f : FortunaState) :
    (maybeReseedFortuna extra f).requests = f.requests + 1 := by
  by_cases h : (f.requests + 1) % 100 = 0 <;> simp [maybeReseedFortuna, h]

theorem maybeReseedFortuna_key (extra : List Nat) (f : FortunaState) :
    (maybeReseedFortuna extra f).key =
      (if (f.requests + 1) % 100 = 0 then hmacSha256 f.key extra else f.key) := by
  by_cases h : (f.requests + 1) % 100 = 0 <;> simp [maybeReseedFortuna, h]

/-- C1: within one scheduler iteration the emitted `reveal` carries the
same `digit`, the same `hash` and the same `minuteBoundary` as the
paired `preview` (both payloads are built from the one `mixed` object
the reveal closure captured), and both equal the digit the Mixer
assigned — the digit never changes between preview and reveal
emission. -/
theorem c1_preview_reveal_identical (toISO : Int → String)
    (aesCtrEnc : List Nat → List Nat → List Nat) (now : Int)
    (nistRes drandRes : Option String) (buf reseedRnd : List Nat)
    (fort : FortunaState) (cha : ChaChaState) (st : String → Nat) :
    ∃ r : IterResult,
      schedIteration toISO aesCtrEnc now nistRes drandRes (some buf) reseedRnd fort cha st =
        some r ∧
      r.preview.digit = r.reveal.digit ∧
      r.preview.hash = r.reveal.hash ∧
      r.preview.minuteBoundary = r.reveal.minuteBoundary ∧
      r.preview.digit =
        (mixOut toISO aesCtrEnc nistRes drandRes buf reseedRnd fort cha (ceilMinute now)).1.digit ∧
      r.preview.hash =
        (mixOut toISO aesCtrEnc nistRes drandRes buf reseedRnd fort cha (ceilMinute now)).1.hash :=
  ⟨iterOut toISO now
      (mixOut toISO aesCtrEnc nistRes drandRes buf reseedRnd fort cha (ceilMinute now)).1
      (mixOut toISO aesCtrEnc nistRes drandRes buf reseedRnd fort cha (ceilMinute now)).2.1
      (mixOut toISO aesCtrEnc nistRes drandRes buf reseedRnd fort cha (ceilMinute now)).2.2 st,
    rfl, rfl, rfl, rfl, rfl, rfl⟩

/-- C9: in every emitted payload the digit is recomputable from the
hash field alone — it equals the first 16 hex characters of `hash`
read as a base-16 unsigned integer, modulo 10, for the preview and the
reveal alike. -/
theorem c9_digit_recomputable_from_hash (toISO : Int → String)
    (aesCtrEnc : List Nat → List Nat → List Nat) (now : Int)
    (nistRes drandRes : Option String) (buf reseedRnd : List Nat)
    (fort : FortunaState) (cha : ChaChaState) (st : String → Nat) :
    ∃ r : IterResult,
      schedIteration toISO aesCtrEnc now nistRes drandRes (some buf) reseedRnd fort cha st =
        some r ∧
      r.preview.digit = hexToNat (jsSlice r.preview.hash 16) % 10 ∧
      r.reveal.digit = hexToNat (jsSlice r.reveal.hash 16) % 10 :=
  ⟨iterOut toISO now
      (mixOut toISO aesCtrEnc nistRes drandRes buf reseedRnd fort cha (ceilMinute now)).1
      (mixOut toISO aesCtrEnc nistRes drandRes buf reseedRnd fort cha (ceilMinute now)).2.1
      (mixOut toISO aesCtrEnc nistRes drandRes buf reseedRnd fort cha (ceilMinute now)).2.2 st,
    rfl, rfl, rfl⟩

/-- C4: the mixed digit is the first 16 hex characters of the SHA-256
digest of the `"|"`-joined tagged contributions, read as an unsigned
integer and reduced modulo 10; that prefix really is 16 characters
long (the digest hex string has 64), the digit is an integer in
`[0, 9]`, and the full digest hex string is the stored proof. -/
theorem c4_digit_from_sha256_prefix (toISO : Int → String)
    (aesCtrEnc : List Nat → List Nat → List Nat)
    (nistRes drandRes : Option String) (buf reseedRnd : List Nat)
    (fort : FortunaState) (cha : ChaChaState) (b : Int) :
    ∃ r : MixResult × FortunaState × ChaChaState,
      computeMixedDigit toISO aesCtrEnc nistRes drandRes (some buf) reseedRnd fort cha b =
        some r ∧
      r.1.hash = sha256hexStr (String.intercalate "|" r.1.parts) ∧
      r.1.digit = hexToNat (jsSlice r.1.hash 16) % 10 ∧
      (jsSlice r.1.hash 16).data.length = 16 ∧
      r.1.digit < 10 := by
  refine ⟨mixOut toISO aesCtrEnc nistRes drandRes buf reseedRnd fort cha b, rfl, rfl, rfl, ?_, ?_⟩
  · have h64 :
        ((mixOut toISO aesCtrEnc nistRes drandRes buf reseedRnd fort cha b).1.hash).data.length =
          64 := sha256hexStr_length _
    simp [jsSlice, List.length_take, h64]
  · have hd :
        (mixOut toISO aesCtrEnc nistRes drandRes buf reseedRnd fort cha b).1.digit =
          hexToNat (jsSlice
            (mixOut toISO aesCtrEnc nistRes drandRes buf reseedRnd fort cha b).1.hash 16) % 10 :=
      rfl
    rw [hd]
    exact Nat.mod_lt _ (by norm_num)

/-- C5: every remote-fetch failure mode yields `Unavailable` (`null`)
— `fetchWithTimeout` never lets an exception escape, and both beacon
wrappers map failed fetches to `null` — and when both remote providers
are unavailable the round still completes: the mix succeeds with
exactly the three local contributions plus the timestamp tag, and the
digit is still a populated value in `[0, 9]`. -/
theorem c5_remote_failure_soft_and_local_fallback (toISO : Int → String)
    (aesCtrEnc : List Nat → List Nat → List Nat) (buf reseedRnd : List Nat)
    (fort : FortunaState) (cha : ChaChaState) (b : Int) :
    (∀ (α : Type) (k : FetchFailure), fetchWithTimeout (α := α) (Except.error k) = none) ∧
    (∀ k : FetchFailure, fetchNIST (Except.error k) = none) ∧
    (∀ k1 k2 : FetchFailure, fetchDrand [Except.error k1, Except.error k2] = none) ∧
    (∃ r : MixResult × FortunaState × ChaChaState,
      computeMixedDigit toISO aesCtrEnc none none (some buf) reseedRnd fort cha b = some r ∧
      r.1.digit < 10 ∧
      r.1.parts =
        ["openssl:" ++ toHex buf,
         "fortuna:" ++ toHex (aesCtrEnc (maybeReseedFortuna reseedRnd fort).key
                                (maybeReseedFortuna reseedRnd fort).counter),
         "chacha20:" ++ toHex (chacha20Block cha.key cha.counter cha.nonce),
         "ts:" ++ toISO b]) := by
  refine ⟨fun α k => rfl, fun k => rfl, fun k1 k2 => rfl,
    mixOut toISO aesCtrEnc none none buf reseedRnd fort cha b, rfl, ?_, rfl⟩
  have hd :
      (mixOut toISO aesCtrEnc none none buf reseedRnd fort cha b).1.digit =
        hexToNat (jsSlice
          (mixOut toISO aesCtrEnc none none buf reseedRnd fort cha b).1.hash 16) % 10 :=
    rfl
  rw [hd]
  exact Nat.mod_lt _ (by norm_num)

/-- C10: one `computeMixedDigit` call mutates the provider state
exactly as follows: the 16-byte Fortuna counter is incremented by one
as a 128-bit big-endian integer (wrapping mod `2^128`, staying 16
bytes), the Fortuna request count increments by one, the Fortuna key
is unchanged unless the call's request count is a multiple of 100 — in
which case it becomes `HMAC-SHA256(old key, 32 fresh OS-random bytes)`
— the ChaCha block counter increments by exactly one, and the ChaCha
key and nonce are unchanged. -/
theorem c10_provider_state_frame (toISO : Int → String)
    (aesCtrEnc : List Nat → List Nat → List Nat)
    (nistRes drandRes : Option String) (buf reseedRnd : List Nat)
    (fort : FortunaState) (cha : ChaChaState) (b : Int)
    (hlen : fort.counter.length = 16)
    (hbytes : ∀ x ∈ fort.counter, x < 256) :
    ∃ r : MixResult × FortunaState × ChaChaState,
      computeMixedDigit toISO aesCtrEnc nistRes drandRes (some buf) reseedRnd fort cha b =
        some r ∧
      beVal r.2.1.counter = (beVal fort.counter + 1) % 2 ^ 128 ∧
      r.2.1.counter.length = 16 ∧
      r.2.1.requests = fort.requests + 1 ∧
      r.2.1.key = (if (fort.requests + 1) % 100 = 0 then hmacSha256 fort.key reseedRnd
                   else fort.key) ∧
      r.2.2.counter = cha.counter + 1 ∧
      r.2.2.key = cha.key ∧
      r.2.2.nonce = cha.nonce := by
  refine ⟨mixOut toISO aesCtrEnc nistRes drandRes buf reseedRnd fort cha b,
    rfl, ?_, ?_, ?_, ?_, rfl, rfl, rfl⟩
  · have h1 :
        (mixOut toISO aesCtrEnc nistRes drandRes buf reseedRnd fort cha b).2.1.counter =
          incrementCounter (maybeReseedFortuna reseedRnd fort).counter := rfl
    rw [h1, maybeReseedFortuna_counter, beVal_incrementCounter _ hbytes, hlen]
    norm_num
  · have h1 :
        (mixOut toISO aesCtrEnc nistRes drandRes buf reseedRnd fort cha b).2.1.counter =
          incrementCounter (maybeReseedFortuna reseedRnd fort).counter := rfl
    rw [h1, incrementCounter_length, maybeReseedFortuna_counter, hlen]
  · have h1 :
        (mixOut toISO aesCtrEnc nistRes drandRes buf reseedRnd fort cha b).2.1.requests =
          (maybeReseedFortuna reseedRnd fort).requests := rfl
    rw [h1, maybeReseedFortuna_requests]
  · have h1 :
        (mixOut toISO aesCtrEnc nistRes drandRes buf reseedRnd fort cha b).2.1.key =
          (maybeReseedFortuna reseedRnd fort).key := rfl
    rw [h1, maybeReseedFortuna_key]

/-- Witness for `c10_provider_state_frame`: the concrete process-start
state `fort0` (16 zero counter bytes) satisfies the hypotheses, and the
frame facts hold there. -/
theorem c10_provider_state_frame_witness :
    fort0.counter.length = 16 ∧ (∀ x ∈ fort0.counter, x < 256) ∧
    (∃ r : MixResult × FortunaState × ChaChaState,
      computeMixedDigit toISO0 aes0 none none (some [1]) [2] fort0 cha0 0 = some r ∧
      beVal r.2.1.counter = (beVal fort0.counter + 1) % 2 ^ 128 ∧
      r.2.1.counter.length = 16 ∧
      r.2.1.requests = fort0.requests + 1 ∧
      r.2.1.key = (if (fort0.requests + 1) % 100 = 0 then hmacSha256 fort0.key [2]
                   else fort0.key) ∧
      r.2.2.counter = cha0.counter + 1 ∧
      r.2.2.key = cha0.key ∧
      r.2.2.nonce = cha0.nonce) :=
  ⟨by decide, by decide,
   c10_provider_state_frame toISO0 aes0 none none [1] [2] fort0 cha0 0 (by decide) (by decide)⟩

theorem primaryOf_cases (parts : List String) :
    primaryOf parts = "nist" ∨ primaryOf parts = "drand" ∨ primaryOf parts = "openssl" ∨
    primaryOf parts = "fortuna" ∨ primaryOf parts = "chacha20" := by
  unfold primaryOf
  split_ifs <;> simp

theorem sumStats_bump_of_primary (st : String → Nat) (parts : List String) :
    sumStats (bumpStats st (primaryOf parts)) = sumStats st + 1 := by
  rcases primaryOf_cases parts with h | h | h | h | h <;>
    rw [h] <;> simp +decide [sumStats, bumpStats] <;> omega

/-- The code's prefix-scanning primary selection agrees with the
spec's priority rule: the first contributing provider in the order
nist, drand, openssl, fortuna, chacha20 (the three local providers
always contribute). -/
theorem primaryOf_mixOut (toISO : Int → String)
    (aesCtrEnc : List Nat → List Nat → List Nat)
    (nistRes drandRes : Option String) (buf reseedRnd : List Nat)
    (fort : FortunaState) (cha : ChaChaState) (b : Int) :
    primaryOf (mixOut toISO aesCtrEnc nistRes drandRes buf reseedRnd fort cha b).1.parts =
      specPrimary (jsTruthyS nistRes) (jsTruthyS drandRes) true true true := by
  rcases nistRes with _ | n
  · rcases drandRes with _ | d
    · simp [mixOut, primaryOf, specPrimary, jsTruthyS, List.any_append, List.any_cons,
        List.any_nil, jsStartsWith_tag_self, notNist_openssl, notNist_fortuna, notNist_chacha,
        notNist_ts, notDrand_openssl, notDrand_fortuna, notDrand_chacha, notDrand_ts]
    · by_cases hd : d = "" <;>
        simp [mixOut, hd, primaryOf, specPrimary, jsTruthyS, List.any_append, List.any_cons,
          List.any_nil, jsStartsWith_tag_self, notNist_drand, notNist_openssl, notNist_fortuna,
          notNist_chacha, notNist_ts, notDrand_openssl, notDrand_fortuna, notDrand_chacha,
          notDrand_ts]
  · rcases drandRes with _ | d
    · by_cases hn : n = "" <;>
        simp [mixOut, hn, primaryOf, specPrimary, jsTruthyS, List.any_append, List.any_cons,
          List.any_nil, jsStartsWith_tag_self, notNist_openssl, notNist_fortuna, notNist_chacha,
          notNist_ts, notDrand_nist, notDrand_openssl, notDrand_fortuna, notDrand_chacha,
          notDrand_ts]
    · by_cases hn : n = "" <;> by_cases hd : d = "" <;>
        simp [mixOut, hn, hd, primaryOf, specPrimary, jsTruthyS, List.any_append, List.any_cons,
          List.any_nil, jsStartsWith_tag_self, notNist_drand, notNist_openssl, notNist_fortuna,
          notNist_chacha, notNist_ts, notDrand_nist, notDrand_openssl, notDrand_fortuna,
          notDrand_chacha, notDrand_ts]

theorem roundStep_eq (toISO : Int → String) (aesCtrEnc : List Nat → List Nat → List Nat)
    (s : SysState) (ri : RoundInput) :
    roundStep toISO aesCtrEnc s ri =
      { fort := (mixOut toISO aesCtrEnc ri.nistRes ri.drandRes ri.opensslBuf ri.reseedRnd
                  s.fort s.cha ri.boundaryMs).2.1,
        cha := (mixOut toISO aesCtrEnc ri.nistRes ri.drandRes ri.opensslBuf ri.reseedRnd
                  s.fort s.cha ri.boundaryMs).2.2,
        stats := bumpStats s.stats
          (primaryOf (mixOut toISO aesCtrEnc ri.nistRes ri.drandRes ri.opensslBuf ri.reseedRnd
            s.fort s.cha ri.boundaryMs).1.parts) } := rfl

/-- C6: (1) after any sequence of completed rounds the sum of the five
per-provider counters has grown by exactly the number of rounds — from
the all-zero start, after `N` rounds the sum is `N`; (2) each round
changes exactly one counter, incrementing the primary provider's count
by one and leaving every other counter unchanged, so every counter is
monotonically non-decreasing; (3) the incremented provider is the
highest-priority contributor of the round under the fixed order
nist > drand > openssl > fortuna > chacha20. -/
theorem c6_stats_sum_and_attribution (toISO : Int → String)
    (aesCtrEnc : List Nat → List Nat → List Nat) :
    (∀ (rounds : List RoundInput) (s0 : SysState),
      sumStats (runRounds toISO aesCtrEnc s0 rounds).stats =
        sumStats s0.stats + rounds.length) ∧
    (∀ (s : SysState) (ri : RoundInput) (q : String),
      (roundStep toISO aesCtrEnc s ri).stats q =
        (if q = primaryOf (mixOut toISO aesCtrEnc ri.nistRes ri.drandRes ri.opensslBuf
            ri.reseedRnd s.fort s.cha ri.boundaryMs).1.parts
         then s.stats q + 1 else s.stats q) ∧
      s.stats q ≤ (roundStep toISO aesCtrEnc s ri).stats q) ∧
    (∀ (nistRes drandRes : Option String) (buf reseedRnd : List Nat)
      (fort : FortunaState) (cha : ChaChaState) (b : Int),
      primaryOf (mixOut toISO aesCtrEnc nistRes drandRes buf reseedRnd fort cha b).1.parts =
        specPrimary (jsTruthyS nistRes) (jsTruthyS drandRes) true true true) := by
  refine ⟨?_, ?_, ?_⟩
  · intro rounds
    induction rounds with
    | nil => intro s0; simp [runRounds, sumStats]
    | cons r rs ih =>
      intro s0
      have hstep : runRounds toISO aesCtrEnc s0 (r :: rs) =
          runRounds toISO aesCtrEnc (roundStep toISO aesCtrEnc s0 r) rs := by
        simp [runRounds]
      rw [hstep, ih, roundStep_eq]
      show sumStats (bumpStats s0.stats _) + rs.length = sumStats s0.stats + (r :: rs).length
      rw [sumStats_bump_of_primary]
      simp
      omega
  · intro s ri q
    rw [roundStep_eq]
    show bumpStats s.stats _ q = _ ∧ s.stats q ≤ bumpStats s.stats _ q
    unfold bumpStats
    constructor
    · rfl
    · split <;> omega
  · intro nistRes drandRes buf reseedRnd fort cha b
    exact primaryOf_mixOut toISO aesCtrEnc nistRes drandRes buf reseedRnd fort cha b

-- ## Validation of the embedded crypto primitives against standard
-- test vectors (FIPS 180-4 / RFC 4231 / RFC 7539).

/-- The embedded SHA-256 matches the standard digest of the empty
string. -/
theorem sha256_empty_vector :
    sha256hexStr "" = "e3b0c44298fc1c149afbf4c8996fb92427ae41e4649b934ca495991b7852b855" := by
  decide

/-- The embedded SHA-256 matches the standard digest of `"abc"`. -/
theorem sha256_abc_vector :
    sha256hexStr "abc" = "ba7816bf8f01cfea414140de5dae2223b00361a396177a9cb410ff61f20015ad" := by
  decide

set_option maxRecDepth 8192 in
/-- The embedded HMAC-SHA256 matches RFC 4231 test case 1. -/
theorem hmacSha256_rfc4231_vector :
    toHex (hmacSha256 (List.replicate 20 0x0b) (strBytes "Hi There")) =
      "b0344c61d8db38535ca8afceaf0bf12b881dc200c9833da726e9376c2e32cff7" := by
  decide

set_option maxRecDepth 8192 in
/-- The embedded ChaCha20 block function matches the RFC 7539 §2.3.2
test vector (key bytes 0..31, counter 1, nonce
`000000090000004a00000000`). -/
theorem chacha20Block_rfc7539_vector :
    toHex (chacha20Block testKey 1 testNonce) =
      "10f1e7e4d13b5915500fdd1fa32071c4c7d1f4c733c068030422aa9ac3d46c4ed2826446079faa0914c2d705d98b02a2b5129cd1de164eb9cbd083e8a2503c4e" := by
  decide
